import Mathlib

/-!
Verification of the orchestration layer in
`baselines/niid_bench/niid_bench/main_scaffold.py`.

The script is pure wiring: it resolves a configuration, calls a dataset
loader, builds a client factory and a server evaluation function, builds an
aggregation strategy, invokes the external simulation runner, and prints the
results.  We embed it shallowly: every external collaborator (hydra, the
dataset loader, the client/evaluation factories, `instantiate`, the
`ScaffoldServer` constructor, `start_simulation`) is an opaque fallible
function supplied through an `Env` record; `main` is the straight-line
function from the source, instrumented to record an event trace of every
collaborator call (with the exact arguments forwarded) and every print.
Opaque scalar configuration leaves (model spec, device spec, learning rate,
momentum, ...) are represented by `Nat` tokens: `main` never computes with
them, it only forwards them, and every theorem below quantifies over all
token values.
-/

namespace NiidBench

/-- Payload of a raised Python exception (opaque to this layer). -/
abbrev Err := String

/-- Opaque token for the model specification subtree `cfg.model`. -/
abbrev ModelSpec := Nat

/-- Opaque token for the device designator `cfg.server_device`. -/
abbrev DeviceSpec := Nat

/-- Opaque token for the strategy configuration subtree `cfg.strategy`. -/
abbrev StrategySpec := Nat

/-- The `cfg.dataset` subtree: the fields `main` reads plus the rest of the
dataset settings as one opaque token (forwarded whole as `config=`). -/
structure DatasetCfg where
  val_split : Nat
  seed : Nat
  rest : Nat
deriving DecidableEq, Repr

/-- The `cfg.client_resources` subtree. -/
structure ClientResourcesCfg where
  num_cpus : Nat
  num_gpus : Nat
deriving DecidableEq, Repr

/-- The resolved hydra configuration: exactly the fields `main` reads. -/
structure Cfg where
  dataset : DatasetCfg
  num_clients : Nat
  num_rounds : Nat
  num_epochs : Nat
  learning_rate : Nat
  momentum : Nat
  weight_decay : Nat
  model : ModelSpec
  server_device : DeviceSpec
  client_resources : ClientResourcesCfg
  strategy : StrategySpec
deriving DecidableEq, Repr

/-- Opaque handle to one client's training data partition. -/
structure TrainLoader where
  tok : Nat
deriving DecidableEq, Repr

/-- Opaque handle to one client's validation data partition. -/
structure ValLoader where
  tok : Nat
deriving DecidableEq, Repr

/-- Opaque handle to the single global test data set. -/
structure TestLoader where
  tok : Nat
deriving DecidableEq, Repr

/-- Opaque value returned by `gen_client_fn` (a Python closure this layer
never calls itself). -/
structure ClientFn where
  tok : Nat
deriving DecidableEq, Repr

/-- Opaque value returned by `server.gen_evaluate_fn` (a Python closure this
layer never calls itself). -/
structure EvaluateFn where
  tok : Nat
deriving DecidableEq, Repr

/-- Opaque strategy object returned by `instantiate(cfg.strategy, ...)`. -/
structure Strategy where
  tok : Nat
deriving DecidableEq, Repr

/-- Opaque server object returned by the `ScaffoldServer` constructor. -/
structure ScaffoldServer where
  tok : Nat
deriving DecidableEq, Repr

/-- Result history returned by the simulation runner: the accumulated
per-round record of client results (opaque `Nat` entries). -/
abbrev History := List (List Nat)

/-- Embedding of `os.path.join` on POSIX paths for two components: an
absolute second component replaces the first, otherwise the components are
joined with a single separator unless one is already present. -/
def osPathJoin (a b : String) : String :=
  if b.startsWith "/" then b
  else if a = "" ∨ a.endsWith "/" then a ++ b
  else a ++ "/" ++ b

/-- Keyword arguments of the `gen_client_fn(...)` call site in `main`. -/
structure GenClientArgs where
  trainloaders : List TrainLoader
  valloaders : List ValLoader
  num_epochs : Nat
  learning_rate : Nat
  model : ModelSpec
  momentum : Nat
  weight_decay : Nat
  client_cv_dir : String
deriving DecidableEq, Repr

/-- Embedding of `fl.server.ServerConfig`. -/
structure ServerConfig where
  num_rounds : Nat
deriving DecidableEq, Repr

/-- The `client_resources` dictionary literal built inside `main`. -/
structure ClientResources where
  num_cpus : Nat
  num_gpus : Nat
deriving DecidableEq, Repr

/-- Keyword arguments of the `fl.simulation.start_simulation(...)` call site
in `main`. -/
structure SimArgs where
  server : ScaffoldServer
  client_fn : ClientFn
  num_clients : Nat
  config : ServerConfig
  client_resources : ClientResources
  strategy : Strategy
deriving DecidableEq, Repr

/-- Observable events of the orchestration layer: each collaborator call with
the arguments forwarded to it, each print to standard output, and the
filesystem effects (`fileWrite`, `mkdir`) that this layer could in principle
perform but — as proved below — never does. -/
inductive Event where
  | printYaml (cfg : Cfg)
  | printSaveNotice (path : String)
  | printHistory (h : History)
  | callLoadDatasets (config : DatasetCfg) (num_clients val_ratio seed : Nat)
  | callGenClientFn (args : GenClientArgs)
  | callGenEvaluateFn (testloader : TestLoader) (device : DeviceSpec)
      (model : ModelSpec)
  | callInstantiate (strategyCfg : StrategySpec) (evaluate : EvaluateFn)
  | callScaffoldServer (strategy : Strategy) (model : ModelSpec)
  | callStartSimulation (args : SimArgs)
  | fileWrite (path : String) (data : List Nat)
  | mkdir (path : String)
deriving DecidableEq, Repr

/-- The external collaborators `main` calls, as opaque fallible functions
(`Except Err` models a Python call that may raise), plus the run output
directory that `HydraConfig.get().runtime.output_dir` resolves to. -/
structure Env where
  hydra_output_dir : String
  load_datasets : DatasetCfg → Nat → Nat → Nat →
    Except Err (List TrainLoader × List ValLoader × TestLoader)
  gen_client_fn : GenClientArgs → Except Err ClientFn
  gen_evaluate_fn : TestLoader → DeviceSpec → ModelSpec → Except Err EvaluateFn
  instantiate : StrategySpec → EvaluateFn → Except Err Strategy
  scaffold_server : Strategy → ModelSpec → Except Err ScaffoldServer
  start_simulation : SimArgs → Except Err History

/-- The argument record the source builds at the `gen_client_fn` call site:
the two loader lists positionally, the hyperparameters from `cfg`, and
`client_cv_dir = os.path.join(save_path, "client_cvs")`. -/
def genClientArgsOf (env : Env) (cfg : Cfg) (trainloaders : List TrainLoader)
    (valloaders : List ValLoader) : GenClientArgs :=
  { trainloaders := trainloaders
    valloaders := valloaders
    num_epochs := cfg.num_epochs
    learning_rate := cfg.learning_rate
    model := cfg.model
    momentum := cfg.momentum
    weight_decay := cfg.weight_decay
    client_cv_dir := osPathJoin env.hydra_output_dir "client_cvs" }

/-- The argument record the source builds at the `start_simulation` call
site. -/
def simArgsOf (cfg : Cfg) (server : ScaffoldServer) (client_fn : ClientFn)
    (strategy : Strategy) : SimArgs :=
  { server := server
    client_fn := client_fn
    num_clients := cfg.num_clients
    config := { num_rounds := cfg.num_rounds }
    client_resources :=
      { num_cpus := cfg.client_resources.num_cpus
        num_gpus := cfg.client_resources.num_gpus }
    strategy := strategy }

/-- Embedding of the body of `main` from `main_scaffold.py`, line by line:
print the YAML config, call `load_datasets`, print the save-path notice,
compute `client_cv_dir`, call `gen_client_fn`, call `gen_evaluate_fn`, call
`instantiate`, construct the `ScaffoldServer` and call `start_simulation`,
then print the history and the save-path notice again.  Returns the event
trace together with the result (`Except.error e` when a collaborator call
raised `e`, in which case execution stops there, exactly as an uncaught
Python exception unwinds the frame). -/
def main (env : Env) (cfg : Cfg) : List Event × Except Err History :=
  let ev := [Event.printYaml cfg,
    Event.callLoadDatasets cfg.dataset cfg.num_clients cfg.dataset.val_split
      cfg.dataset.seed]
  match env.load_datasets cfg.dataset cfg.num_clients cfg.dataset.val_split
      cfg.dataset.seed with
  | Except.error e => (ev, Except.error e)
  | Except.ok (trainloaders, valloaders, testloader) =>
    let save_path := env.hydra_output_dir
    let gargs := genClientArgsOf env cfg trainloaders valloaders
    let ev := ev ++ [Event.printSaveNotice save_path,
      Event.callGenClientFn gargs]
    match env.gen_client_fn gargs with
    | Except.error e => (ev, Except.error e)
    | Except.ok client_fn =>
      let device := cfg.server_device
      let ev := ev ++ [Event.callGenEvaluateFn testloader device cfg.model]
      match env.gen_evaluate_fn testloader device cfg.model with
      | Except.error e => (ev, Except.error e)
      | Except.ok evaluate_fn =>
        let ev := ev ++ [Event.callInstantiate cfg.strategy evaluate_fn]
        match env.instantiate cfg.strategy evaluate_fn with
        | Except.error e => (ev, Except.error e)
        | Except.ok strategy =>
          let ev := ev ++ [Event.callScaffoldServer strategy cfg.model]
          match env.scaffold_server strategy cfg.model with
          | Except.error e => (ev, Except.error e)
          | Except.ok server =>
            let args := simArgsOf cfg server client_fn strategy
            let ev := ev ++ [Event.callStartSimulation args]
            match env.start_simulation args with
            | Except.error e => (ev, Except.error e)
            | Except.ok history =>
              (ev ++ [Event.printHistory history,
                Event.printSaveNotice save_path], Except.ok history)

/-- Embedding of the `@hydra.main` wrapper: configuration resolution happens
before the body runs; a resolution failure propagates and the body never
executes (empty trace). -/
def hydra_main (env : Env) (resolved : Except Err Cfg) :
    List Event × Except Err History :=
  match resolved with
  | Except.error e => ([], Except.error e)
  | Except.ok cfg => main env cfg

/-- Trace of a run that fails inside `load_datasets`. -/
def trace1 (cfg : Cfg) : List Event :=
  [Event.printYaml cfg,
   Event.callLoadDatasets cfg.dataset cfg.num_clients cfg.dataset.val_split
     cfg.dataset.seed]

/-- Trace of a run that fails inside `gen_client_fn`. -/
def trace2 (env : Env) (cfg : Cfg) (tls : List TrainLoader)
    (vls : List ValLoader) : List Event :=
  trace1 cfg ++ [Event.printSaveNotice env.hydra_output_dir,
    Event.callGenClientFn (genClientArgsOf env cfg tls vls)]

/-- Trace of a run that fails inside `gen_evaluate_fn`. -/
def trace3 (env : Env) (cfg : Cfg) (tls : List TrainLoader)
    (vls : List ValLoader) (tl : TestLoader) : List Event :=
  trace2 env cfg tls vls ++
    [Event.callGenEvaluateFn tl cfg.server_device cfg.model]

/-- Trace of a run that fails inside `instantiate`. -/
def trace4 (env : Env) (cfg : Cfg) (tls : List TrainLoader)
    (vls : List ValLoader) (tl : TestLoader) (ef : EvaluateFn) : List Event :=
  trace3 env cfg tls vls tl ++ [Event.callInstantiate cfg.strategy ef]

/-- Trace of a run that fails inside the `ScaffoldServer` constructor. -/
def trace5 (env : Env) (cfg : Cfg) (tls : List TrainLoader)
    (vls : List ValLoader) (tl : TestLoader) (ef : EvaluateFn)
    (st : Strategy) : List Event :=
  trace4 env cfg tls vls tl ef ++ [Event.callScaffoldServer st cfg.model]

/-- Trace of a run that fails inside `start_simulation`. -/
def trace6 (env : Env) (cfg : Cfg) (tls : List TrainLoader)
    (vls : List ValLoader) (tl : TestLoader) (ef : EvaluateFn) (cf : ClientFn)
    (st : Strategy) (sv : ScaffoldServer) : List Event :=
  trace5 env cfg tls vls tl ef st ++
    [Event.callStartSimulation (simArgsOf cfg sv cf st)]

/-- Trace of a run that completes, returning history `h`. -/
def trace7 (env : Env) (cfg : Cfg) (tls : List TrainLoader)
    (vls : List ValLoader) (tl : TestLoader) (ef : EvaluateFn) (cf : ClientFn)
    (st : Strategy) (sv : ScaffoldServer) (h : History) : List Event :=
  trace6 env cfg tls vls tl ef cf st sv ++
    [Event.printHistory h, Event.printSaveNotice env.hydra_output_dir]

/-- Case analysis of `main`: exactly one of the seven exit points is taken,
and in each case the trace and the result are the explicit ones. -/
theorem main_shape (env : Env) (cfg : Cfg) :
    (∃ e, env.load_datasets cfg.dataset cfg.num_clients cfg.dataset.val_split
        cfg.dataset.seed = Except.error e ∧
      main env cfg = (trace1 cfg, Except.error e)) ∨
    (∃ tls vls tl, env.load_datasets cfg.dataset cfg.num_clients
        cfg.dataset.val_split cfg.dataset.seed = Except.ok (tls, vls, tl) ∧
      ((∃ e, env.gen_client_fn (genClientArgsOf env cfg tls vls) =
          Except.error e ∧
        main env cfg = (trace2 env cfg tls vls, Except.error e)) ∨
       (∃ cf, env.gen_client_fn (genClientArgsOf env cfg tls vls) =
          Except.ok cf ∧
        ((∃ e, env.gen_evaluate_fn tl cfg.server_device cfg.model =
            Except.error e ∧
          main env cfg = (trace3 env cfg tls vls tl, Except.error e)) ∨
         (∃ ef, env.gen_evaluate_fn tl cfg.server_device cfg.model =
            Except.ok ef ∧
          ((∃ e, env.instantiate cfg.strategy ef = Except.error e ∧
            main env cfg = (trace4 env cfg tls vls tl ef, Except.error e)) ∨
           (∃ st, env.instantiate cfg.strategy ef = Except.ok st ∧
            ((∃ e, env.scaffold_server st cfg.model = Except.error e ∧
              main env cfg =
                (trace5 env cfg tls vls tl ef st, Except.error e)) ∨
             (∃ sv, env.scaffold_server st cfg.model = Except.ok sv ∧
              ((∃ e, env.start_simulation (simArgsOf cfg sv cf st) =
                  Except.error e ∧
                main env cfg =
                  (trace6 env cfg tls vls tl ef cf st sv, Except.error e)) ∨
               (∃ h, env.start_simulation (simArgsOf cfg sv cf st) =
                  Except.ok h ∧
                main env cfg =
                  (trace7 env cfg tls vls tl ef cf st sv h,
                   Except.ok h)))))))))))) := by
  cases hL : env.load_datasets cfg.dataset cfg.num_clients
      cfg.dataset.val_split cfg.dataset.seed with
  | error e =>
    exact Or.inl ⟨e, rfl, by simp [main, hL, trace1]⟩
  | ok v =>
    obtain ⟨tls, vls, tl⟩ := v
    refine Or.inr ⟨tls, vls, tl, rfl, ?_⟩
    cases hG : env.gen_client_fn (genClientArgsOf env cfg tls vls) with
    | error e =>
      exact Or.inl ⟨e, rfl, by simp [main, hL, hG, trace2, trace1]⟩
    | ok cf =>
      refine Or.inr ⟨cf, rfl, ?_⟩
      cases hE : env.gen_evaluate_fn tl cfg.server_device cfg.model with
      | error e =>
        exact Or.inl ⟨e, rfl, by simp [main, hL, hG, hE, trace3, trace2, trace1]⟩
      | ok ef =>
        refine Or.inr ⟨ef, rfl, ?_⟩
        cases hI : env.instantiate cfg.strategy ef with
        | error e =>
          exact Or.inl ⟨e, rfl,
            by simp [main, hL, hG, hE, hI, trace4, trace3, trace2, trace1]⟩
        | ok st =>
          refine Or.inr ⟨st, rfl, ?_⟩
          cases hS : env.scaffold_server st cfg.model with
          | error e =>
            exact Or.inl ⟨e, rfl,
              by simp [main, hL, hG, hE, hI, hS, trace5, trace4, trace3,
                trace2, trace1]⟩
          | ok sv =>
            refine Or.inr ⟨sv, rfl, ?_⟩
            cases hR : env.start_simulation (simArgsOf cfg sv cf st) with
            | error e =>
              exact Or.inl ⟨e, rfl,
                by simp [main, hL, hG, hE, hI, hS, hR, trace6, trace5, trace4,
                  trace3, trace2, trace1]⟩
            | ok h =>
              exact Or.inr ⟨h, rfl,
                by simp [main, hL, hG, hE, hI, hS, hR, trace7, trace6, trace5,
                  trace4, trace3, trace2, trace1]⟩

/-- True on the three kinds of print events. -/
def Event.isPrint : Event → Bool
  | Event.printYaml _ => true
  | Event.printSaveNotice _ => true
  | Event.printHistory _ => true
  | _ => false

/-- True on `printHistory` events. -/
def Event.isPrintHistory : Event → Bool
  | Event.printHistory _ => true
  | _ => false

/-- True on `fileWrite` events. -/
def Event.isFileWrite : Event → Bool
  | Event.fileWrite _ _ => true
  | _ => false

/-- True on `mkdir` events. -/
def Event.isMkdir : Event → Bool
  | Event.mkdir _ => true
  | _ => false

/-- True on `callLoadDatasets` events. -/
def Event.isCallLoadDatasets : Event → Bool
  | Event.callLoadDatasets _ _ _ _ => true
  | _ => false

/-- True on `callGenClientFn` events. -/
def Event.isCallGenClientFn : Event → Bool
  | Event.callGenClientFn _ => true
  | _ => false

/-- True on `callGenEvaluateFn` events. -/
def Event.isCallGenEvaluateFn : Event → Bool
  | Event.callGenEvaluateFn _ _ _ => true
  | _ => false

/-- True on `callInstantiate` events. -/
def Event.isCallInstantiate : Event → Bool
  | Event.callInstantiate _ _ => true
  | _ => false

/-- True on `callScaffoldServer` events. -/
def Event.isCallScaffoldServer : Event → Bool
  | Event.callScaffoldServer _ _ => true
  | _ => false

/-- True on `callStartSimulation` events. -/
def Event.isCallStartSimulation : Event → Bool
  | Event.callStartSimulation _ => true
  | _ => false

/-- Modelled from the spec: per-round client fit results of the external
runner.  The runner "drives N rounds of client sampling, local training, and
server aggregation"; each round samples the available clients (identifiers
below `num_clients`) and collects one opaque result per sampled client,
produced by the opaque function `fit`. -/
def clientFitResults (fit : Nat → Nat) (num_clients : Nat) : List Nat :=
  (List.range num_clients).map fit

/-- Modelled from the spec: the external simulation runner
`fl.simulation.start_simulation`, whose implementation belongs to this
repository's framework code but is not among the excerpted sources.  Per the
spec it drives `num_rounds` rounds and returns the "accumulated result
record" (`History`, "append-only during the run"): each round accumulates the
round's client results; a round that produces no client results accumulates
nothing, which realizes the short-circuit the spec requires at the
`num_clients = 0` / `num_rounds = 0` boundary. -/
def spec_start_simulation (fit : Nat → Nat) (num_rounds num_clients : Nat) :
    History :=
  (List.range num_rounds).foldl
    (fun h _ =>
      match clientFitResults fit num_clients with
      | [] => h
      | rs => h ++ [rs]) []

/-- An environment whose simulation runner is the spec-modelled one, driven
by the `num_rounds` and `num_clients` arguments `main` forwards to it. -/
def envWithSpecRunner (env : Env) (fit : Nat → Nat) : Env :=
  { env with
    start_simulation := fun args =>
      Except.ok (spec_start_simulation fit args.config.num_rounds
        args.num_clients) }

/-- Folding a function that ignores its arguments leaves the accumulator. -/
theorem foldl_const {α β : Type} (l : List β) (acc : α) :
    l.foldl (fun h _ => h) acc = acc := by
  induction l generalizing acc with
  | nil => rfl
  | cons x xs ih => simp [List.foldl, ih acc]

/-- The spec-modelled runner returns the empty history when either the round
count or the client count is zero. -/
theorem spec_start_simulation_empty (fit : Nat → Nat)
    (num_rounds num_clients : Nat)
    (h : num_clients = 0 ∨ num_rounds = 0) :
    spec_start_simulation fit num_rounds num_clients = [] := by
  rcases h with h | h
  · subst h
    simp [spec_start_simulation, clientFitResults, foldl_const]
  · subst h
    rfl

/-- Concrete environment used by the witnesses: every collaborator succeeds
with a distinct token. -/
def envW : Env :=
  { hydra_output_dir := "/outputs/run1"
    load_datasets := fun _ _ _ _ => Except.ok ([⟨0⟩], [⟨1⟩], ⟨2⟩)
    gen_client_fn := fun _ => Except.ok ⟨3⟩
    gen_evaluate_fn := fun _ _ _ => Except.ok ⟨4⟩
    instantiate := fun _ _ => Except.ok ⟨5⟩
    scaffold_server := fun _ _ => Except.ok ⟨6⟩
    start_simulation := fun _ => Except.ok [[7]] }

/-- Concrete configuration used by the witnesses. -/
def cfgW : Cfg :=
  { dataset := ⟨21, 22, 23⟩
    num_clients := 4
    num_rounds := 5
    num_epochs := 6
    learning_rate := 7
    momentum := 8
    weight_decay := 9
    model := 10
    server_device := 11
    client_resources := ⟨12, 13⟩
    strategy := 14 }

/-- The client-factory argument record `main` builds for `envW` / `cfgW`. -/
def gargsW : GenClientArgs := genClientArgsOf envW cfgW [⟨0⟩] [⟨1⟩]

/-- C1: for every run, the auxiliary-state directory path passed to the
client-factory (the `client_cv_dir` argument of `gen_client_fn`) equals the
resolved run output directory (`HydraConfig.get().runtime.output_dir`) joined
with the component "client_cvs". -/
theorem client_cv_dir_is_output_dir_join (env : Env) (cfg : Cfg)
    (a : GenClientArgs)
    (hmem : Event.callGenClientFn a ∈ (main env cfg).1) :
    a.client_cv_dir = osPathJoin env.hydra_output_dir "client_cvs" := by
  rcases main_shape env cfg with
    ⟨e, hL, hm⟩ |
    ⟨tls, vls, tl, hL,
      ⟨e, hG, hm⟩ |
      ⟨cf, hG,
        ⟨e, hE, hm⟩ |
        ⟨ef, hE,
          ⟨e, hI, hm⟩ |
          ⟨st, hI,
            ⟨e, hS, hm⟩ |
            ⟨sv, hS,
              ⟨e, hR, hm⟩ |
              ⟨hist, hR, hm⟩⟩⟩⟩⟩⟩
  all_goals rw [hm] at hmem
  all_goals simp [trace1, trace2, trace3, trace4, trace5, trace6,
    trace7] at hmem
  all_goals simp [hmem, genClientArgsOf]

/-- Witness for C1 at the concrete environment and configuration. -/
theorem client_cv_dir_is_output_dir_join_witness :
    Event.callGenClientFn gargsW ∈ (main envW cfgW).1 ∧
    gargsW.client_cv_dir = osPathJoin envW.hydra_output_dir "client_cvs" :=
  ⟨by simp [main, envW, cfgW, gargsW],
   client_cv_dir_is_output_dir_join envW cfgW gargsW
     (by simp [main, envW, cfgW, gargsW])⟩

/-- C2: exactly one strategy object is constructed per run; it receives the
evaluation function (`gen_evaluate_fn` applied to the test data handle, the
device from `cfg.server_device`, and the model spec) at construction via the
`evaluate_fn` argument; and that same single strategy instance is the one
passed both to the `ScaffoldServer` constructor and to `start_simulation`. -/
theorem strategy_single_instance (env : Env) (cfg : Cfg)
    (tls : List TrainLoader) (vls : List ValLoader) (tl : TestLoader)
    (cf : ClientFn) (ef : EvaluateFn) (st : Strategy)
    (hld : env.load_datasets cfg.dataset cfg.num_clients cfg.dataset.val_split
      cfg.dataset.seed = Except.ok (tls, vls, tl))
    (hgc : env.gen_client_fn (genClientArgsOf env cfg tls vls) = Except.ok cf)
    (hge : env.gen_evaluate_fn tl cfg.server_device cfg.model = Except.ok ef)
    (hin : env.instantiate cfg.strategy ef = Except.ok st) :
    (main env cfg).1.countP Event.isCallInstantiate = 1 ∧
    Event.callInstantiate cfg.strategy ef ∈ (main env cfg).1 ∧
    (∀ s f, Event.callInstantiate s f ∈ (main env cfg).1 →
      s = cfg.strategy ∧ f = ef) ∧
    (∀ s m, Event.callScaffoldServer s m ∈ (main env cfg).1 → s = st) ∧
    (∀ a, Event.callStartSimulation a ∈ (main env cfg).1 →
      a.strategy = st) := by
  rcases main_shape env cfg with
    ⟨e, hL, hm⟩ |
    ⟨tls', vls', tl', hL,
      ⟨e, hG, hm⟩ |
      ⟨cf', hG,
        ⟨e, hE, hm⟩ |
        ⟨ef', hE,
          ⟨e, hI, hm⟩ |
          ⟨st', hI,
            ⟨e, hS, hm⟩ |
            ⟨sv, hS,
              ⟨e, hR, hm⟩ |
              ⟨hist, hR, hm⟩⟩⟩⟩⟩⟩
  all_goals rw [hld] at hL
  all_goals simp_all [trace1, trace2, trace3, trace4, trace5, trace6, trace7,
    Event.isCallInstantiate, simArgsOf, List.countP_cons]

/-- Witness for C2 at the concrete environment and configuration. -/
theorem strategy_single_instance_witness :
    Event.callInstantiate cfgW.strategy ⟨4⟩ ∈ (main envW cfgW).1 ∧
    (∀ a, Event.callStartSimulation a ∈ (main envW cfgW).1 →
      a.strategy = (⟨5⟩ : Strategy)) :=
  ⟨(strategy_single_instance envW cfgW [⟨0⟩] [⟨1⟩] ⟨2⟩ ⟨3⟩ ⟨4⟩ ⟨5⟩
      (by simp [envW]) (by simp [envW]) (by simp [envW])
      (by simp [envW])).2.1,
   (strategy_single_instance envW cfgW [⟨0⟩] [⟨1⟩] ⟨2⟩ ⟨3⟩ ⟨4⟩ ⟨5⟩
      (by simp [envW]) (by simp [envW]) (by simp [envW])
      (by simp [envW])).2.2.2.2⟩

/-- C3: for every input configuration, if any collaborator call raises, the
exception propagates out of `main` unchanged and the run terminates there:
`main` returns exactly the raised error, and its trace is exactly the events
up to and including the failing call — so the failing call is not retried, no
later collaborator is called, and no recovery happens; a configuration
resolution failure propagates with the body never running at all.  One
conjunct per collaborator, each conditioned on the run having reached that
call. -/
theorem errors_propagate_uncaught (env : Env) (cfg : Cfg) :
    (∀ e : Err, hydra_main env (Except.error e) = ([], Except.error e)) ∧
    (∀ e, env.load_datasets cfg.dataset cfg.num_clients cfg.dataset.val_split
        cfg.dataset.seed = Except.error e →
      main env cfg = (trace1 cfg, Except.error e)) ∧
    (∀ tls vls tl e,
      env.load_datasets cfg.dataset cfg.num_clients cfg.dataset.val_split
        cfg.dataset.seed = Except.ok (tls, vls, tl) →
      env.gen_client_fn (genClientArgsOf env cfg tls vls) = Except.error e →
      main env cfg = (trace2 env cfg tls vls, Except.error e)) ∧
    (∀ tls vls tl cf e,
      env.load_datasets cfg.dataset cfg.num_clients cfg.dataset.val_split
        cfg.dataset.seed = Except.ok (tls, vls, tl) →
      env.gen_client_fn (genClientArgsOf env cfg tls vls) = Except.ok cf →
      env.gen_evaluate_fn tl cfg.server_device cfg.model = Except.error e →
      main env cfg = (trace3 env cfg tls vls tl, Except.error e)) ∧
    (∀ tls vls tl cf ef e,
      env.load_datasets cfg.dataset cfg.num_clients cfg.dataset.val_split
        cfg.dataset.seed = Except.ok (tls, vls, tl) →
      env.gen_client_fn (genClientArgsOf env cfg tls vls) = Except.ok cf →
      env.gen_evaluate_fn tl cfg.server_device cfg.model = Except.ok ef →
      env.instantiate cfg.strategy ef = Except.error e →
      main env cfg = (trace4 env cfg tls vls tl ef, Except.error e)) ∧
    (∀ tls vls tl cf ef st e,
      env.load_datasets cfg.dataset cfg.num_clients cfg.dataset.val_split
        cfg.dataset.seed = Except.ok (tls, vls, tl) →
      env.gen_client_fn (genClientArgsOf env cfg tls vls) = Except.ok cf →
      env.gen_evaluate_fn tl cfg.server_device cfg.model = Except.ok ef →
      env.instantiate cfg.strategy ef = Except.ok st →
      env.scaffold_server st cfg.model = Except.error e →
      main env cfg = (trace5 env cfg tls vls tl ef st, Except.error e)) ∧
    (∀ tls vls tl cf ef st sv e,
      env.load_datasets cfg.dataset cfg.num_clients cfg.dataset.val_split
        cfg.dataset.seed = Except.ok (tls, vls, tl) →
      env.gen_client_fn (genClientArgsOf env cfg tls vls) = Except.ok cf →
      env.gen_evaluate_fn tl cfg.server_device cfg.model = Except.ok ef →
      env.instantiate cfg.strategy ef = Except.ok st →
      env.scaffold_server st cfg.model = Except.ok sv →
      env.start_simulation (simArgsOf cfg sv cf st) = Except.error e →
      main env cfg =
        (trace6 env cfg tls vls tl ef cf st sv, Except.error e)) := by
  refine ⟨fun e => rfl, ?_, ?_, ?_, ?_, ?_, ?_⟩
  · intro e h1
    simp [main, h1, trace1]
  · intro tls vls tl e h1 h2
    simp [main, h1, h2, trace2, trace1]
  · intro tls vls tl cf e h1 h2 h3
    simp [main, h1, h2, h3, trace3, trace2, trace1]
  · intro tls vls tl cf ef e h1 h2 h3 h4
    simp [main, h1, h2, h3, h4, trace4, trace3, trace2, trace1]
  · intro tls vls tl cf ef st e h1 h2 h3 h4 h5
    simp [main, h1, h2, h3, h4, h5, trace5, trace4, trace3, trace2, trace1]
  · intro tls vls tl cf ef st sv e h1 h2 h3 h4 h5 h6
    simp [main, h1, h2, h3, h4, h5, h6, trace6, trace5, trace4, trace3,
      trace2, trace1]

/-- Environment whose dataset loader raises. -/
def envErrW : Env :=
  { envW with load_datasets := fun _ _ _ _ => Except.error "boom" }

/-- Environment whose simulation runner raises. -/
def envSimErrW : Env :=
  { envW with start_simulation := fun _ => Except.error "simboom" }

/-- Witness for C3: a failing dataset loader and a failing simulation runner
each propagate their exact error out of `main` with the trace stopping at the
failing call, and a configuration resolution failure short-circuits the
body. -/
theorem errors_propagate_uncaught_witness :
    main envErrW cfgW = (trace1 cfgW, Except.error "boom") ∧
    main envSimErrW cfgW =
      (trace6 envSimErrW cfgW [⟨0⟩] [⟨1⟩] ⟨2⟩ ⟨4⟩ ⟨3⟩ ⟨5⟩ ⟨6⟩,
       Except.error "simboom") ∧
    hydra_main envW (Except.error "crash") = ([], Except.error "crash") :=
  ⟨(errors_propagate_uncaught envErrW cfgW).2.1 "boom" (by rfl),
   (errors_propagate_uncaught envSimErrW cfgW).2.2.2.2.2.2
     [⟨0⟩] [⟨1⟩] ⟨2⟩ ⟨3⟩ ⟨4⟩ ⟨5⟩ ⟨6⟩ "simboom"
     (by rfl) (by rfl) (by rfl) (by rfl) (by rfl) (by rfl),
   (errors_propagate_uncaught envW cfgW).1 "crash"⟩

/-- C4: for every run that completes, `main` writes to standard output, in
this order: the resolved configuration as YAML, the save-path notice, the
result history, then the save-path notice a second time; both notices carry
the same path string and nothing else is printed by this layer. -/
theorem stdout_prints_in_order (env : Env) (cfg : Cfg) (hist : History)
    (hok : (main env cfg).2 = Except.ok hist) :
    (main env cfg).1.filter Event.isPrint =
      [Event.printYaml cfg, Event.printSaveNotice env.hydra_output_dir,
       Event.printHistory hist,
       Event.printSaveNotice env.hydra_output_dir] := by
  rcases main_shape env cfg with
    ⟨e, hL, hm⟩ |
    ⟨tls, vls, tl, hL,
      ⟨e, hG, hm⟩ |
      ⟨cf, hG,
        ⟨e, hE, hm⟩ |
        ⟨ef, hE,
          ⟨e, hI, hm⟩ |
          ⟨st, hI,
            ⟨e, hS, hm⟩ |
            ⟨sv, hS,
              ⟨e, hR, hm⟩ |
              ⟨hist', hR, hm⟩⟩⟩⟩⟩⟩
  all_goals rw [hm] at hok ⊢
  all_goals simp only [Except.ok.injEq, reduceCtorEq] at hok
  all_goals subst hok
  all_goals simp [trace7, trace6, trace5, trace4, trace3, trace2, trace1,
    Event.isPrint]

/-- Witness for C4 at the concrete environment and configuration. -/
theorem stdout_prints_in_order_witness :
    (main envW cfgW).1.filter Event.isPrint =
      [Event.printYaml cfgW, Event.printSaveNotice envW.hydra_output_dir,
       Event.printHistory [[7]],
       Event.printSaveNotice envW.hydra_output_dir] :=
  stdout_prints_in_order envW cfgW [[7]] (by rfl)

/-- C5: after the simulation returns, `main` never writes the history to any
file or other persistent store: the trace contains no file-write event, and
the only externalization of the history is the single print to standard
output. -/
theorem history_only_printed_never_persisted (env : Env) (cfg : Cfg) :
    (main env cfg).1.filter Event.isFileWrite = [] ∧
    (∀ hist, (main env cfg).2 = Except.ok hist →
      (main env cfg).1.countP
        (fun e => decide (e = Event.printHistory hist)) = 1) := by
  rcases main_shape env cfg with
    ⟨e, hL, hm⟩ |
    ⟨tls, vls, tl, hL,
      ⟨e, hG, hm⟩ |
      ⟨cf, hG,
        ⟨e, hE, hm⟩ |
        ⟨ef, hE,
          ⟨e, hI, hm⟩ |
          ⟨st, hI,
            ⟨e, hS, hm⟩ |
            ⟨sv, hS,
              ⟨e, hR, hm⟩ |
              ⟨hist', hR, hm⟩⟩⟩⟩⟩⟩
  all_goals rw [hm]
  all_goals refine ⟨by simp [trace7, trace6, trace5, trace4, trace3, trace2,
    trace1, Event.isFileWrite], ?_⟩
  all_goals intro hist hok
  all_goals simp only [Except.ok.injEq, reduceCtorEq] at hok
  all_goals subst hok
  all_goals simp [trace7, trace6, trace5, trace4, trace3, trace2, trace1,
    List.countP_cons]

/-- Witness for C5 at the concrete environment and configuration. -/
theorem history_only_printed_never_persisted_witness :
    (main envW cfgW).1.filter Event.isFileWrite = [] ∧
    (main envW cfgW).1.countP
      (fun e => decide (e = Event.printHistory [[7]])) = 1 :=
  ⟨(history_only_printed_never_persisted envW cfgW).1,
   (history_only_printed_never_persisted envW cfgW).2 [[7]] (by rfl)⟩

/-- C6: `load_datasets` is invoked exactly once per run, with `config` equal
to `cfg.dataset`, `num_clients` equal to `cfg.num_clients`, `val_ratio` equal
to `cfg.dataset.val_split`, and `seed` equal to `cfg.dataset.seed`; its three
results are bound in order: the first becomes the per-client training handles
and the second the per-client validation handles given to the client-factory,
and the third becomes the single global test handle given to the
evaluation-function factory. -/
theorem load_datasets_called_once (env : Env) (cfg : Cfg) :
    (main env cfg).1.countP Event.isCallLoadDatasets = 1 ∧
    Event.callLoadDatasets cfg.dataset cfg.num_clients cfg.dataset.val_split
      cfg.dataset.seed ∈ (main env cfg).1 ∧
    (∀ d n v s, Event.callLoadDatasets d n v s ∈ (main env cfg).1 →
      d = cfg.dataset ∧ n = cfg.num_clients ∧ v = cfg.dataset.val_split ∧
      s = cfg.dataset.seed) ∧
    (∀ tls vls tl, env.load_datasets cfg.dataset cfg.num_clients
        cfg.dataset.val_split cfg.dataset.seed = Except.ok (tls, vls, tl) →
      (∀ a, Event.callGenClientFn a ∈ (main env cfg).1 →
        a.trainloaders = tls ∧ a.valloaders = vls) ∧
      (∀ t d m, Event.callGenEvaluateFn t d m ∈ (main env cfg).1 →
        t = tl)) := by
  rcases main_shape env cfg with
    ⟨e, hL, hm⟩ |
    ⟨tls, vls, tl, hL,
      ⟨e, hG, hm⟩ |
      ⟨cf, hG,
        ⟨e, hE, hm⟩ |
        ⟨ef, hE,
          ⟨e, hI, hm⟩ |
          ⟨st, hI,
            ⟨e, hS, hm⟩ |
            ⟨sv, hS,
              ⟨e, hR, hm⟩ |
              ⟨hist, hR, hm⟩⟩⟩⟩⟩⟩
  all_goals rw [hm]
  all_goals simp_all [trace1, trace2, trace3, trace4, trace5, trace6, trace7,
    List.countP_cons, Event.isCallLoadDatasets, genClientArgsOf]

/-- Witness for C6 at the concrete environment and configuration. -/
theorem load_datasets_called_once_witness :
    Event.callLoadDatasets cfgW.dataset cfgW.num_clients
      cfgW.dataset.val_split cfgW.dataset.seed ∈ (main envW cfgW).1 ∧
    (∀ t d m, Event.callGenEvaluateFn t d m ∈ (main envW cfgW).1 →
      t = (⟨2⟩ : TestLoader)) :=
  ⟨(load_datasets_called_once envW cfgW).2.1,
   ((load_datasets_called_once envW cfgW).2.2.2 [⟨0⟩] [⟨1⟩] ⟨2⟩
     (by simp [envW])).2⟩

/-- C9: the orchestration layer performs no filesystem effects of its own —
it never creates the `client_cvs` directory and never writes a file; it only
computes the directory path with `os.path.join` and forwards it to the
client-factory. -/
theorem no_filesystem_effects (env : Env) (cfg : Cfg) :
    (main env cfg).1.filter (fun e => e.isMkdir || e.isFileWrite) = [] ∧
    (∀ a, Event.callGenClientFn a ∈ (main env cfg).1 →
      a.client_cv_dir = osPathJoin env.hydra_output_dir "client_cvs") := by
  rcases main_shape env cfg with
    ⟨e, hL, hm⟩ |
    ⟨tls, vls, tl, hL,
      ⟨e, hG, hm⟩ |
      ⟨cf, hG,
        ⟨e, hE, hm⟩ |
        ⟨ef, hE,
          ⟨e, hI, hm⟩ |
          ⟨st, hI,
            ⟨e, hS, hm⟩ |
            ⟨sv, hS,
              ⟨e, hR, hm⟩ |
              ⟨hist, hR, hm⟩⟩⟩⟩⟩⟩
  all_goals rw [hm]
  all_goals simp [trace1, trace2, trace3, trace4, trace5, trace6, trace7,
    Event.isMkdir, Event.isFileWrite, genClientArgsOf]

/-- Witness for C9 at the concrete environment and configuration. -/
theorem no_filesystem_effects_witness :
    (main envW cfgW).1.filter (fun e => e.isMkdir || e.isFileWrite) = [] ∧
    gargsW.client_cv_dir = osPathJoin envW.hydra_output_dir "client_cvs" :=
  ⟨(no_filesystem_effects envW cfgW).1,
   (no_filesystem_effects envW cfgW).2 gargsW
     (by simp [main, envW, cfgW, gargsW])⟩

/-- C8: `main` never mutates the settings object `cfg` — the embedding
threads `cfg` as an immutable value, so the checkable content is that every
value forwarded to a collaborator is read from `cfg` and passed through
unchanged: each recorded call event carries exactly the corresponding `cfg`
fields. -/
theorem cfg_forwarded_unchanged (env : Env) (cfg : Cfg) :
    (∀ d n v s, Event.callLoadDatasets d n v s ∈ (main env cfg).1 →
      d = cfg.dataset ∧ n = cfg.num_clients ∧ v = cfg.dataset.val_split ∧
      s = cfg.dataset.seed) ∧
    (∀ a, Event.callGenClientFn a ∈ (main env cfg).1 →
      a.num_epochs = cfg.num_epochs ∧ a.learning_rate = cfg.learning_rate ∧
      a.model = cfg.model ∧ a.momentum = cfg.momentum ∧
      a.weight_decay = cfg.weight_decay) ∧
    (∀ t d m, Event.callGenEvaluateFn t d m ∈ (main env cfg).1 →
      d = cfg.server_device ∧ m = cfg.model) ∧
    (∀ s f, Event.callInstantiate s f ∈ (main env cfg).1 →
      s = cfg.strategy) ∧
    (∀ s m, Event.callScaffoldServer s m ∈ (main env cfg).1 →
      m = cfg.model) ∧
    (∀ a, Event.callStartSimulation a ∈ (main env cfg).1 →
      a.num_clients = cfg.num_clients ∧
      a.config.num_rounds = cfg.num_rounds ∧
      a.client_resources.num_cpus = cfg.client_resources.num_cpus ∧
      a.client_resources.num_gpus = cfg.client_resources.num_gpus) := by
  rcases main_shape env cfg with
    ⟨e, hL, hm⟩ |
    ⟨tls, vls, tl, hL,
      ⟨e, hG, hm⟩ |
      ⟨cf, hG,
        ⟨e, hE, hm⟩ |
        ⟨ef, hE,
          ⟨e, hI, hm⟩ |
          ⟨st, hI,
            ⟨e, hS, hm⟩ |
            ⟨sv, hS,
              ⟨e, hR, hm⟩ |
              ⟨hist, hR, hm⟩⟩⟩⟩⟩⟩
  all_goals rw [hm]
  all_goals simp [trace1, trace2, trace3, trace4, trace5, trace6, trace7,
    genClientArgsOf, simArgsOf]

/-- Witness for C8 at the concrete environment and configuration. -/
theorem cfg_forwarded_unchanged_witness :
    gargsW.num_epochs = cfgW.num_epochs ∧
    gargsW.learning_rate = cfgW.learning_rate ∧
    gargsW.model = cfgW.model ∧ gargsW.momentum = cfgW.momentum ∧
    gargsW.weight_decay = cfgW.weight_decay :=
  (cfg_forwarded_unchanged envW cfgW).2.1 gargsW
    (by simp [main, envW, cfgW, gargsW])

/-- C10: the wiring keeps the data handles disjoint between roles: the
evaluation-function factory receives exactly the global test handle (and the
device and model spec — no per-client handle lists appear among its
arguments), while the client-factory receives exactly the per-client train
and validation handle lists (the `GenClientArgs` record has no test-handle
component). -/
theorem data_handles_role_disjoint (env : Env) (cfg : Cfg)
    (tls : List TrainLoader) (vls : List ValLoader) (tl : TestLoader)
    (hld : env.load_datasets cfg.dataset cfg.num_clients cfg.dataset.val_split
      cfg.dataset.seed = Except.ok (tls, vls, tl)) :
    (∀ t d m, Event.callGenEvaluateFn t d m ∈ (main env cfg).1 →
      t = tl ∧ d = cfg.server_device ∧ m = cfg.model) ∧
    (∀ a, Event.callGenClientFn a ∈ (main env cfg).1 →
      a = genClientArgsOf env cfg tls vls) := by
  rcases main_shape env cfg with
    ⟨e, hL, hm⟩ |
    ⟨tls', vls', tl', hL,
      ⟨e, hG, hm⟩ |
      ⟨cf, hG,
        ⟨e, hE, hm⟩ |
        ⟨ef, hE,
          ⟨e, hI, hm⟩ |
          ⟨st, hI,
            ⟨e, hS, hm⟩ |
            ⟨sv, hS,
              ⟨e, hR, hm⟩ |
              ⟨hist, hR, hm⟩⟩⟩⟩⟩⟩
  all_goals rw [hld] at hL
  all_goals simp_all [trace1, trace2, trace3, trace4, trace5, trace6, trace7]

/-- Witness for C10 at the concrete environment and configuration. -/
theorem data_handles_role_disjoint_witness :
    (∀ t d m, Event.callGenEvaluateFn t d m ∈ (main envW cfgW).1 →
      t = (⟨2⟩ : TestLoader) ∧ d = cfgW.server_device ∧ m = cfgW.model) ∧
    (∀ a, Event.callGenClientFn a ∈ (main envW cfgW).1 →
      a = genClientArgsOf envW cfgW [⟨0⟩] [⟨1⟩]) :=
  data_handles_role_disjoint envW cfgW [⟨0⟩] [⟨1⟩] ⟨2⟩ (by simp [envW])

/-- C7: with `num_clients = 0` or `num_rounds = 0`, the full orchestration
(with the spec-modelled external runner) is rejected — a collaborator error
propagates — or short-circuits to an empty history; `main` is a total
function, so it cannot hang. -/
theorem zero_rounds_or_clients_short_circuit (env : Env) (fit : Nat → Nat)
    (cfg : Cfg) (hzero : cfg.num_clients = 0 ∨ cfg.num_rounds = 0)
    (hist : History)
    (hok : (main (envWithSpecRunner env fit) cfg).2 = Except.ok hist) :
    hist = [] := by
  rcases main_shape (envWithSpecRunner env fit) cfg with
    ⟨e, hL, hm⟩ |
    ⟨tls, vls, tl, hL,
      ⟨e, hG, hm⟩ |
      ⟨cf, hG,
        ⟨e, hE, hm⟩ |
        ⟨ef, hE,
          ⟨e, hI, hm⟩ |
          ⟨st, hI,
            ⟨e, hS, hm⟩ |
            ⟨sv, hS,
              ⟨e, hR, hm⟩ |
              ⟨hist', hR, hm⟩⟩⟩⟩⟩⟩
  all_goals rw [hm] at hok
  all_goals simp only [Except.ok.injEq, reduceCtorEq] at hok
  subst hok
  simp only [envWithSpecRunner, simArgsOf, Except.ok.injEq] at hR
  rw [← hR]
  exact spec_start_simulation_empty fit cfg.num_rounds cfg.num_clients hzero

/-- Configuration with a zero round count, for the C7 witness. -/
def cfgZeroRounds : Cfg := { cfgW with num_rounds := 0 }

/-- Witness for C7: at the concrete environment with zero rounds, the run
completes and the history is empty. -/
theorem zero_rounds_or_clients_short_circuit_witness :
    spec_start_simulation id 0 cfgZeroRounds.num_clients = [] :=
  zero_rounds_or_clients_short_circuit envW id cfgZeroRounds (Or.inr rfl)
    (spec_start_simulation id 0 cfgZeroRounds.num_clients) (by rfl)

end NiidBench
